import Mathlib

/-!
Verification of the retrieval-and-extraction pipeline of `economist_mcp.py`.

The HTML documents consumed by the two extractors are shallowly embedded as
trees of nodes (tag name, attributes, class list, children, interleaved with
raw text nodes).  The BeautifulSoup operations the source uses
(`select` / `select_one` over CSS attribute- and class-selectors,
`get_text` with and without `separator=' '` / `strip=True`) are embedded as
document-order traversals of that tree.  Python string primitives
(`str.strip`, `str.split`, `in`, `len`, `str.join`) are embedded as the
corresponding functions on `String` / `List Char`.
-/

namespace EconomistMcp

mutual
/-- An HTML DOM node as seen by BeautifulSoup: either a raw text node or an
element with a tag name, attribute list, class list and children. -/
inductive Node where
  | text (s : String)
  | elem (tag : String) (attrs : List (String × String)) (classes : List String)
      (children : NodeList)
/-- A sequence of sibling nodes. -/
inductive NodeList where
  | nil
  | cons (n : Node) (ns : NodeList)
end

/-- The parsed document (`soup`): its sequence of top-level nodes. -/
abbrev Soup := NodeList

/-- Build a `NodeList` from a Lean list. -/
def NodeList.ofList : List Node → NodeList
  | [] => .nil
  | n :: ns => .cons n (NodeList.ofList ns)

/-- Tag name of a node (text nodes have none). -/
def Node.tag : Node → String
  | .text _ => ""
  | .elem t _ _ _ => t

/-- Attribute lookup, as `elem.get(key)` on a BeautifulSoup tag. -/
def Node.attr (n : Node) (k : String) : Option String :=
  match n with
  | .text _ => none
  | .elem _ a _ _ => (a.find? (fun p => p.1 == k)).map (fun p => p.2)

/-- Class list of a node, as `elem.get('class', [])`. -/
def Node.classes : Node → List String
  | .text _ => []
  | .elem _ _ c _ => c

mutual
/-- The element nodes of the subtree rooted at `n` (including `n` itself when
it is an element), in document (preorder) order. -/
def selfElems : Node → List Node
  | .text _ => []
  | .elem t a c ch => Node.elem t a c ch :: allElems ch
/-- All element nodes below a sequence of nodes, in document order; this is
the search space of a BeautifulSoup `select` on a container whose children
are `ns`. -/
def allElems : NodeList → List Node
  | .nil => []
  | .cons n ns => selfElems n ++ allElems ns
end

mutual
/-- The raw strings inside a single node, in document order. -/
def Node.strings : Node → List String
  | .text s => [s]
  | .elem _ _ _ ch => stringsIn ch
/-- All raw strings below a sequence of nodes, in document order. -/
def stringsIn : NodeList → List String
  | .nil => []
  | .cons n ns => n.strings ++ stringsIn ns
end

/-- Python `str.join`: `pyJoin sep [a, b, c] = a ++ sep ++ b ++ sep ++ c`. -/
def pyJoin (sep : String) : List String → String
  | [] => ""
  | [x] => x
  | x :: xs => x ++ sep ++ pyJoin sep xs

/-- Whitespace characters stripped by Python's `str.strip()`. -/
def pyWs (c : Char) : Bool :=
  c = ' ' || c = '\t' || c = '\n' || c = '\r' || c = '\x0b' || c = '\x0c'

/-- Python `str.strip()`. -/
def pyStrip (s : String) : String :=
  String.mk (((s.data.dropWhile pyWs).reverse.dropWhile pyWs).reverse)

/-- Prefix test: `listStartsWith l p` is true when `p` is a prefix of `l`. -/
def listStartsWith : List Char → List Char → Bool
  | _, [] => true
  | [], _ :: _ => false
  | c :: cs, d :: ds => c == d && listStartsWith cs ds

/-- Substring test: `containsSub needle hay` holds when some suffix of `hay` starts with `needle`. -/
def containsSub (needle : List Char) : List Char → Bool
  | [] => listStartsWith [] needle
  | c :: cs => listStartsWith (c :: cs) needle || containsSub needle cs

/-- Python `sub in s` (substring containment). -/
def containsStr (s sub : String) : Bool :=
  containsSub sub.data s.data

/-- BeautifulSoup `get_text()` with no arguments: concatenation of all strings below the
given nodes, in document order. -/
def getText (ns : NodeList) : String :=
  String.join (stringsIn ns)

/-- The stripped, non-empty strings inside a node: BeautifulSoup's
`_all_strings(strip=True)` stream used by `get_text(..., strip=True)`. -/
def strippedTexts (n : Node) : List String :=
  (n.strings.map pyStrip).filter (fun s => s ≠ "")

/-- The value of `elem.get_text(strip=True)`: stripped strings joined with no separator. -/
def getTextStripN (n : Node) : String :=
  String.join (strippedTexts n)

/-- The value of `elem.get_text(separator=' ', strip=True)`: stripped strings joined with
a single space. -/
def getTextSpaceStrip (n : Node) : String :=
  pyJoin " " (strippedTexts n)

/-! ### CSS selectors used by the source -/

/-- Selector `article[data-testid="Article"]`. -/
def isArticleContainer (n : Node) : Bool :=
  n.tag == "article" && n.attr "data-testid" == some "Article"

/-- Selector `p[data-component="the-world-in-brief-paragraph"]`. -/
def isTwibPara (n : Node) : Bool :=
  n.tag == "p" && n.attr "data-component" == some "the-world-in-brief-paragraph"

/-- Selector `.css-p09rkj.e1pqka930` (briefing section-heading marker). -/
def isBriefHeading (n : Node) : Bool :=
  n.classes.contains "css-p09rkj" && n.classes.contains "e1pqka930"

/-- Selector `p[data-component="paragraph"]`. -/
def isParaMarker (n : Node) : Bool :=
  n.tag == "p" && n.attr "data-component" == some "paragraph"

/-- The briefing selector list
`p[data-component="the-world-in-brief-paragraph"], .css-p09rkj.e1pqka930,
p[data-component="paragraph"]`. -/
def briefingSel (n : Node) : Bool :=
  isTwibPara n || isBriefHeading n || isParaMarker n

/-- Selector `.css-1tik00t.e1qjd5lc0` (article title marker). -/
def isTitleMarker (n : Node) : Bool :=
  n.classes.contains "css-1tik00t" && n.classes.contains "e1qjd5lc0"

/-- Selector `.css-1fxcbca.e6h2z500` (article subheading marker). -/
def isSubheadingMarker (n : Node) : Bool :=
  n.classes.contains "css-1fxcbca" && n.classes.contains "e6h2z500"

/-! ### Briefing extractor (`_get_latest_briefing_logic`) -/

/-- The scope of the briefing element search: the children of the first
`article[data-testid="Article"]` if one exists, otherwise the whole soup. -/
def briefingContainer (soup : Soup) : NodeList :=
  match (allElems soup).find? isArticleContainer with
  | some (Node.elem _ _ _ ch) => ch
  | _ => soup

/-- The value of `container.select(selector)`: matching elements in document order. -/
def briefingElements (soup : Soup) : List Node :=
  (allElems (briefingContainer soup)).filter briefingSel

/-- The per-element body of the briefing loop: skip whitespace-only text,
emit `the-world-in-brief-paragraph` and `paragraph` elements as-is, and
elements carrying class `css-p09rkj` with a `"\n## "` prefix. -/
def classifyBriefingElem (n : Node) : Option String :=
  let text := getTextSpaceStrip n
  if text = "" then none
  else if n.tag == "p" && n.attr "data-component" == some "the-world-in-brief-paragraph" then
    some text
  else if n.classes.contains "css-p09rkj" then
    some ("\n## " ++ text)
  else if n.tag == "p" && n.attr "data-component" == some "paragraph" then
    some text
  else none

/-- The `content_parts` list accumulated by the briefing loop. -/
def briefingParts (soup : Soup) : List String :=
  (briefingElements soup).filterMap classifyBriefingElem

/-- The briefing `full_text = "\n\n".join(content_parts)`. -/
def briefingFullText (soup : Soup) : String :=
  pyJoin "\n\n" (briefingParts soup)

/-- The function `_get_latest_briefing_logic`, applied to the fetched content:
`none` stands for the empty string returned by a failed fetch, and
`some soup` for a non-empty HTML document parsed into `soup`. -/
def getLatestBriefingLogic (html : Option Soup) : String :=
  match html with
  | none => "Error: Failed to fetch content. Cloudflare might be blocking or network issue."
  | some soup =>
    if (briefingElements soup).isEmpty then
      if containsStr (getText soup) "Just a moment"
          || containsStr (getText soup) "Enable JavaScript" then
        "Error: Still blocked by Cloudflare challenge. Please try updating cookies."
      else
        "Error: Could not find briefing content. Structure might have changed."
    else if (briefingFullText soup).length < 100 then
      "Error: Briefing content too short."
    else
      briefingFullText soup

/-! ### Article extractor (`_read_full_article_logic`) -/

/-- The title value `title_elem.get_text(strip=True) if title_elem else "Title not found"`. -/
def articleTitle (ch : NodeList) : String :=
  match (allElems ch).find? isTitleMarker with
  | some el => getTextStripN el
  | none => "Title not found"

/-- The value `subheading_elem.get_text(strip=True) if subheading_elem else None`. -/
def articleSubheading (ch : NodeList) : Option String :=
  ((allElems ch).find? isSubheadingMarker).map getTextStripN

/-- The `paragraphs` list: non-empty normalized texts of
`p[data-component="paragraph"]` descendants, in document order. -/
def articleParagraphs (ch : NodeList) : List String :=
  ((allElems ch).filter isParaMarker).filterMap (fun p =>
    let t := getTextSpaceStrip p
    if t = "" then none else some t)

/-- The `article_parts` list: `Title:` line, `Subheading:` line when the
subheading element exists and its text is truthy, then the body block. -/
def articleParts (ch : NodeList) : List String :=
  ("Title: " ++ articleTitle ch) ::
  ((match articleSubheading ch with
    | some s => if s = "" then [] else ["Subheading: " ++ s]
    | none => []) ++
   ["\nBody:\n" ++ pyJoin "\n\n" (articleParagraphs ch)])

/-- The article `full_text = "\n".join(article_parts)`. -/
def articleFullText (ch : NodeList) : String :=
  pyJoin "\n" (articleParts ch)

/-- The function `_read_full_article_logic`, applied to the fetched content: the empty
string (`none`) parses into an empty soup and is not special-cased. -/
def readFullArticleLogic (html : Option Soup) : String :=
  let soup := html.getD .nil
  match (allElems soup).find? isArticleContainer with
  | some (Node.elem _ _ _ ch) =>
    if (articleParagraphs ch).length = 0 || (articleFullText ch).length < 100 then
      "Error: Could not extract sufficient text. Check cookie validity or paywall status."
    else
      articleFullText ch
  | _ =>
    if containsStr (getText soup) "Just a moment" then
      "Error: Blocked by Cloudflare challenge."
    else
      "Error: Could not find article container. Check URL or cookie validity."

/-! ### Fetcher (`fetch_content`) -/

/-- One cookie record passed to `context.add_cookies`. -/
structure Cookie where
  name : String
  value : String
  domain : String
  path : String
deriving DecidableEq, Repr

/-- Splitting: `splitCh sep l` splits `l` at every occurrence of `sep`, keeping empty
pieces: Python `str.split(sep)` for a one-character separator. -/
def splitCh (sep : Char) : List Char → List (List Char)
  | [] => [[]]
  | c :: cs =>
    if c = sep then [] :: splitCh sep cs
    else (splitCh sep cs).modifyHead (fun l => c :: l)

/-- Python `s.split(sep)` for a one-character separator. -/
def pySplit (sep : Char) (s : String) : List String :=
  (splitCh sep s.data).map String.mk

/-- Python `s.split('=', 1)` on a string containing `'='`: the part before
the first `'='` and everything after it. -/
def splitFirstEq (s : String) : String × String :=
  (String.mk (s.data.takeWhile (fun c => c ≠ '=')),
   String.mk ((s.data.dropWhile (fun c => c ≠ '=')).drop 1))

/-- The cookie built from one `;`-separated segment that contains `'='`:
`name, value = item.strip().split('=', 1)` with the fixed domain and path. -/
def cookieOfSegment (item : String) : Cookie :=
  ⟨(splitFirstEq (pyStrip item)).1, (splitFirstEq (pyStrip item)).2, ".economist.com", "/"⟩

/-- The cookie list built by `fetch_content` from `ECONOMIST_COOKIE`:
segments without `'='` are skipped. -/
def parseCookies (cookieStr : String) : List Cookie :=
  (pySplit ';' cookieStr).filterMap (fun item =>
    if item.data.contains '=' then some (cookieOfSegment item) else none)

/-- The external conditions one call of `fetch_content` runs under: the
configured cookie string and which of the Playwright operations fail by
raising, plus the HTML `page.content()` would return. -/
structure FetchWorld where
  cookieEnv : Option String
  launchFails : Bool
  addCookiesFails : Bool
  gotoFails : Bool
  waitSelectorFails : Bool
  scrollFails : Bool
  contentFails : Bool
  pageHtml : String

/-- The body of the `try` block of `fetch_content`: any raise inside it is
caught and replaced by the empty string; the `wait_for_selector` raise is
swallowed by the inner `try ... except: pass` and execution continues. -/
def fetchTryBody (w : FetchWorld) : String :=
  if w.gotoFails then ""
  else
    let _ := w.waitSelectorFails
    if w.scrollFails then ""
    else if w.contentFails then ""
    else w.pageHtml

/-- The function `fetch_content`: browser launch, context creation and cookie injection
happen before the `try` block, so a raise there propagates (`Except.error`);
everything from `page.goto` on is inside the `try` and yields `Except.ok`
with either the page content or the empty-string sentinel.
`add_cookies` is only called when the parsed cookie list is non-empty. -/
def fetch_content (w : FetchWorld) : Except String String :=
  if w.launchFails then Except.error "browser launch failed"
  else
    let cookiesNonempty :=
      match w.cookieEnv with
      | some s => !(parseCookies s).isEmpty
      | none => false
    if cookiesNonempty && w.addCookiesFails then Except.error "add_cookies failed"
    else Except.ok (fetchTryBody w)

/-! ### Claim-side devices: line decomposition and fragment shapes -/

/-- The lines of a piece of text: split at every newline character. -/
def splitNl (l : List Char) : List (List Char) :=
  splitCh '\n' l

/-- One classified briefing fragment. -/
inductive Frag where
  | para (t : String)
  | heading (t : String)
deriving DecidableEq, Repr

/-- The text carried by a fragment. -/
def Frag.text : Frag → String
  | .para t => t
  | .heading t => t

/-- How the briefing loop renders a fragment into `content_parts`. -/
def renderFrag : Frag → String
  | .para t => t
  | .heading t => "\n## " ++ t

/-- The classification underlying `classifyBriefingElem`, keeping the
paragraph/heading distinction explicit. -/
def classifyFrag (n : Node) : Option Frag :=
  let text := getTextSpaceStrip n
  if text = "" then none
  else if n.tag == "p" && n.attr "data-component" == some "the-world-in-brief-paragraph" then
    some (Frag.para text)
  else if n.classes.contains "css-p09rkj" then
    some (Frag.heading text)
  else if n.tag == "p" && n.attr "data-component" == some "paragraph" then
    some (Frag.para text)
  else none

/-- The classified fragments of the briefing page, in document order. -/
def briefingFrags (soup : Soup) : List Frag :=
  (briefingElements soup).filterMap classifyFrag

/-- The line decomposition of the briefing output predicted from its
fragments: paragraphs on their own line, headings as a `## ` line preceded
by one extra blank line, one blank line between consecutive fragments. -/
def fragLines : List Frag → List (List Char)
  | [] => [[]]
  | [Frag.para t] => [t.data]
  | [Frag.heading t] => [[], ("## " ++ t).data]
  | Frag.para t :: fs => t.data :: [] :: fragLines fs
  | Frag.heading t :: fs => [] :: ("## " ++ t).data :: [] :: fragLines fs

/-- Newline-free pieces joined by a blank line, as a list of lines. -/
def blankSep : List (List Char) → List (List Char)
  | [] => [[]]
  | [p] => [p]
  | p :: ps => p :: [] :: blankSep ps

/-! ### Concrete fixture documents -/

/-- A body paragraph long enough to clear the 100-character minimum. -/
def longPara : String :=
  "The world economy shifted again today as markets digested a string of surprising data releases from several large countries."

/-- A second long body paragraph. -/
def secondPara : String :=
  "Analysts cautioned that the newest figures remain provisional and could be revised substantially in the coming weeks."

/-- A body paragraph that happens to begin with the formatter's own
headline token. -/
def titlePrefixedPara : String :=
  "Title: a quoted caption inside the body that begins with the very token the formatter uses for its own headline line."

/-- Challenge-marker text alongside a matching briefing paragraph. -/
def challengedBriefingSoup : Soup :=
  .ofList [Node.text "Just a moment",
    Node.elem "p" [("data-component", "the-world-in-brief-paragraph")] []
      (.ofList [Node.text longPara])]

/-- Challenge-marker text inside a present article container. -/
def challengedArticleSoup : Soup :=
  .ofList [Node.elem "article" [("data-testid", "Article")] [] (.ofList
    [Node.text "Just a moment",
     Node.elem "p" [("data-component", "paragraph")] [] (.ofList [Node.text longPara])])]

/-- A pure challenge interstitial: no content elements at all. -/
def challengeOnlySoup : Soup :=
  .ofList [Node.elem "div" [] [] (.ofList [Node.text "Just a moment..."])]

/-- A challenge interstitial that only asks to enable JavaScript. -/
def jsOnlySoup : Soup :=
  .ofList [Node.elem "div" [] [] (.ofList [Node.text "Please Enable JavaScript to continue"])]

/-- An unrelated page with neither content markers nor challenge text. -/
def plainSoup : Soup :=
  .ofList [Node.elem "div" [] [] (.ofList [Node.text "hello world"])]

/-- A briefing page whose only matched element yields a 4-character text. -/
def shortBriefingSoup : Soup :=
  .ofList [Node.elem "p" [("data-component", "paragraph")] [] (.ofList [Node.text "tiny"])]

/-- The container children of `shortArticleSoup`. -/
def shortArticleBody : NodeList :=
  .ofList [Node.elem "p" [("data-component", "paragraph")] [] (.ofList [Node.text "tiny"])]

/-- An article whose container holds a single 4-character paragraph. -/
def shortArticleSoup : Soup :=
  .ofList [Node.elem "article" [("data-testid", "Article")] [] shortArticleBody]

/-- The headline element shared by the article fixtures. -/
def headlineElem : Node :=
  Node.elem "h1" [] ["css-1tik00t", "e1qjd5lc0"] (.ofList [Node.text "A headline"])

/-- The container children of `trickyArticleSoup`: a title, a whitespace-only
paragraph marker and a paragraph whose text starts with the headline token. -/
def trickyArticleBody : NodeList :=
  .ofList [headlineElem,
    Node.elem "p" [("data-component", "paragraph")] [] (.ofList [Node.text "   "]),
    Node.elem "p" [("data-component", "paragraph")] [] (.ofList [Node.text titlePrefixedPara])]

/-- An article with a title, no subheading, a whitespace-only paragraph
marker and a paragraph whose text starts with the headline token. -/
def trickyArticleSoup : Soup :=
  .ofList [Node.elem "article" [("data-testid", "Article")] [] trickyArticleBody]

/-- The container children of `cleanArticleSoup`. -/
def cleanArticleBody : NodeList :=
  .ofList [headlineElem,
    Node.elem "p" [("data-component", "paragraph")] [] (.ofList [Node.text longPara]),
    Node.elem "p" [("data-component", "paragraph")] [] (.ofList [Node.text secondPara])]

/-- An article with a title, no subheading and two well-behaved paragraphs. -/
def cleanArticleSoup : Soup :=
  .ofList [Node.elem "article" [("data-testid", "Article")] [] cleanArticleBody]

/-- The container children of `untitledArticleSoup`. -/
def untitledArticleBody : NodeList :=
  .ofList [Node.elem "p" [("data-component", "paragraph")] [] (.ofList [Node.text longPara])]

/-- An article container with one long paragraph and no title element. -/
def untitledArticleSoup : Soup :=
  .ofList [Node.elem "article" [("data-testid", "Article")] [] untitledArticleBody]

/-- A briefing page with one paragraph followed by one section heading. -/
def headedBriefingSoup : Soup :=
  .ofList [Node.elem "p" [("data-component", "the-world-in-brief-paragraph")] []
      (.ofList [Node.text longPara]),
    Node.elem "div" [] ["css-p09rkj", "e1pqka930"] (.ofList [Node.text "Europe"])]

/-- A fetch run where everything succeeds. -/
def okWorld : FetchWorld :=
  ⟨some "a=1; b=2", false, false, false, false, false, false, "page content"⟩

/-- A fetch run where navigation raises inside the `try` block. -/
def gotoFailWorld : FetchWorld :=
  ⟨none, false, false, true, false, false, false, "page content"⟩

/-- A fetch run where only the bounded selector wait times out. -/
def selectorTimeoutWorld : FetchWorld :=
  ⟨none, false, false, false, true, false, false, "page content"⟩

/-- A fetch run where `add_cookies` raises, before the `try` block. -/
def cookieFailWorld : FetchWorld :=
  ⟨some "a=1", false, true, false, false, false, false, "page content"⟩

/-! ### Helper lemmas -/

set_option maxRecDepth 100000

theorem strData_append (a b : String) : (a ++ b).data = a.data ++ b.data := by
  cases a; cases b; rfl

theorem filterMap_guard {α β : Type} (p : α → Bool) (f : α → β) (l : List α) :
    l.filterMap (fun a => if p a then some (f a) else none) = (l.filter p).map f := by
  induction l with
  | nil => rfl
  | cons a l ih =>
    cases h : p a <;> simp [List.filterMap_cons, List.filter_cons, h, ih]

theorem modifyHead_comp (f g : List Char → List Char) (l : List (List Char)) :
    (l.modifyHead f).modifyHead g = l.modifyHead (fun x => g (f x)) := by
  cases l <;> rfl

theorem splitCh_cons_sep (sep : Char) (l : List Char) :
    splitCh sep (sep :: l) = [] :: splitCh sep l := by
  simp [splitCh]

theorem splitCh_append (sep : Char) (a b : List Char) (h : sep ∉ a) :
    splitCh sep (a ++ b) = (splitCh sep b).modifyHead (fun l => a ++ l) := by
  induction a with
  | nil =>
    show splitCh sep b = (splitCh sep b).modifyHead (fun l => [] ++ l)
    cases hb : splitCh sep b <;> simp [List.modifyHead]
  | cons c cs ih =>
    have hc : ¬ c = sep := fun hh => h (hh ▸ List.mem_cons_self c cs)
    have hcs : sep ∉ cs := fun hm => h (List.mem_cons_of_mem c hm)
    rw [List.cons_append]
    simp only [splitCh, if_neg hc, ih hcs, modifyHead_comp]
    cases splitCh sep b <;> rfl

theorem splitCh_single (sep : Char) (a : List Char) (h : sep ∉ a) :
    splitCh sep a = [a] := by
  have e := splitCh_append sep a [] h
  simpa [splitCh, List.modifyHead] using e

theorem pyJoin_cons_of_ne (sep x : String) (xs : List String) (h : xs ≠ []) :
    pyJoin sep (x :: xs) = x ++ sep ++ pyJoin sep xs := by
  cases xs with
  | nil => exact absurd rfl h
  | cons y ys => rfl

theorem splitNl_pyJoin_blank (ps : List String) (h : ∀ p ∈ ps, '\n' ∉ p.data) :
    splitNl (pyJoin "\n\n" ps).data = blankSep (ps.map String.data) := by
  induction ps with
  | nil => rfl
  | cons p ps ih =>
    cases ps with
    | nil =>
      have hp : '\n' ∉ p.data := h p (by simp)
      simp [pyJoin, splitNl, blankSep, splitCh_single '\n' p.data hp]
    | cons q r =>
      have hp : '\n' ∉ p.data := h p (by simp)
      have hrest : ∀ x ∈ q :: r, '\n' ∉ x.data := fun x hx => h x (by simp [hx])
      have e2 : (pyJoin "\n\n" (p :: q :: r)).data
          = p.data ++ ('\n' :: '\n' :: (pyJoin "\n\n" (q :: r)).data) := by
        show (p ++ "\n\n" ++ pyJoin "\n\n" (q :: r)).data = _
        simp only [strData_append, List.append_assoc]
        rfl
      simp only [splitNl] at ih ⊢
      rw [e2, splitCh_append '\n' p.data _ hp, splitCh_cons_sep, splitCh_cons_sep, ih hrest]
      simp [List.modifyHead, blankSep]

theorem classifyBriefingElem_eq_frag (n : Node) :
    classifyBriefingElem n = (classifyFrag n).map renderFrag := by
  by_cases h1 : getTextSpaceStrip n = ""
  · simp [classifyBriefingElem, classifyFrag, h1]
  · by_cases h2 : n.tag = "p" ∧ n.attr "data-component" = some "the-world-in-brief-paragraph"
    · simp [classifyBriefingElem, classifyFrag, h1, h2, renderFrag]
    · by_cases h3 : "css-p09rkj" ∈ n.classes
      · simp [classifyBriefingElem, classifyFrag, h1, h2, h3, renderFrag]
      · by_cases h4 : n.tag = "p" ∧ n.attr "data-component" = some "paragraph"
        · simp [classifyBriefingElem, classifyFrag, h1, h2, h3, h4, renderFrag]
        · simp [classifyBriefingElem, classifyFrag, h1, h2, h3, h4]

theorem briefingParts_eq_frags (soup : Soup) :
    briefingParts soup = (briefingFrags soup).map renderFrag := by
  unfold briefingParts briefingFrags
  rw [List.map_filterMap]
  congr 1
  funext n
  exact classifyBriefingElem_eq_frag n

theorem splitNl_pyJoin_frags (fs : List Frag) (h : ∀ f ∈ fs, '\n' ∉ f.text.data) :
    splitNl (pyJoin "\n\n" (fs.map renderFrag)).data = fragLines fs := by
  induction fs with
  | nil => rfl
  | cons f fs ih =>
    cases fs with
    | nil =>
      cases f with
      | para t =>
        have ht : '\n' ∉ t.data := h (Frag.para t) (by simp)
        simp [pyJoin, splitNl, fragLines, renderFrag, splitCh_single '\n' t.data ht]
      | heading t =>
        have ht : '\n' ∉ t.data := h (Frag.heading t) (by simp)
        have hsh : '\n' ∉ ("## " ++ t).data := by
          rw [strData_append]
          intro hmem
          rcases List.mem_append.mp hmem with hx | hx
          · exact absurd hx (by decide)
          · exact ht hx
        have e : (pyJoin "\n\n" (([Frag.heading t]).map renderFrag)).data
            = '\n' :: ("## " ++ t).data := by
          show ("\n## " ++ t).data = _
          simp only [strData_append]
          rfl
        simp only [splitNl]
        rw [e, splitCh_cons_sep, splitCh_single '\n' _ hsh]
        rfl
    | cons g r =>
      have hrest : ∀ x ∈ g :: r, '\n' ∉ x.text.data := fun x hx => h x (by simp [hx])
      cases f with
      | para t =>
        have ht : '\n' ∉ t.data := h (Frag.para t) (by simp)
        have e2 : (pyJoin "\n\n" ((Frag.para t :: g :: r).map renderFrag)).data
            = t.data ++ ('\n' :: '\n' :: (pyJoin "\n\n" ((g :: r).map renderFrag)).data) := by
          show (renderFrag (Frag.para t) ++ "\n\n" ++ pyJoin "\n\n" ((g :: r).map renderFrag)).data = _
          simp only [strData_append, List.append_assoc, renderFrag]
          rfl
        simp only [splitNl] at ih ⊢
        rw [e2, splitCh_append '\n' t.data _ ht, splitCh_cons_sep, splitCh_cons_sep, ih hrest]
        simp [List.modifyHead, fragLines]
      | heading t =>
        have ht : '\n' ∉ t.data := h (Frag.heading t) (by simp)
        have hsh : '\n' ∉ ("## " ++ t).data := by
          rw [strData_append]
          intro hmem
          rcases List.mem_append.mp hmem with hx | hx
          · exact absurd hx (by decide)
          · exact ht hx
        have e2 : (pyJoin "\n\n" ((Frag.heading t :: g :: r).map renderFrag)).data
            = '\n' :: (("## " ++ t).data
                ++ ('\n' :: '\n' :: (pyJoin "\n\n" ((g :: r).map renderFrag)).data)) := by
          show (renderFrag (Frag.heading t) ++ "\n\n" ++ pyJoin "\n\n" ((g :: r).map renderFrag)).data = _
          simp only [strData_append, List.append_assoc, renderFrag]
          rfl
        simp only [splitNl] at ih ⊢
        rw [e2, splitCh_cons_sep, splitCh_append '\n' _ _ hsh, splitCh_cons_sep,
          splitCh_cons_sep, ih hrest]
        simp [List.modifyHead, fragLines]

/-! ### C10 -/

/-- C10: on the empty document returned by a failed fetch, the briefing
pipeline returns the generic fetch-failure message, while the article
pipeline has no empty-content check and returns the container-missing
message. -/
theorem empty_document_divergence :
    getLatestBriefingLogic none =
      "Error: Failed to fetch content. Cloudflare might be blocking or network issue." ∧
    readFullArticleLogic none =
      "Error: Could not find article container. Check URL or cookie validity." :=
  ⟨rfl, rfl⟩

/-! ### C9 -/

/-- C9: both extractors are deterministic functions of the fetched document:
two invocations on the identical document yield identical output. -/
theorem extractors_deterministic (d d' : Option Soup) (h : d = d') :
    getLatestBriefingLogic d = getLatestBriefingLogic d' ∧
    readFullArticleLogic d = readFullArticleLogic d' := by
  subst h
  exact ⟨rfl, rfl⟩

/-- Witness for C9 at a concrete document. -/
theorem extractors_deterministic_witness :
    getLatestBriefingLogic (some plainSoup) = getLatestBriefingLogic (some plainSoup) ∧
    readFullArticleLogic (some plainSoup) = readFullArticleLogic (some plainSoup) :=
  extractors_deterministic (some plainSoup) (some plainSoup) rfl

/-! ### C5 -/

/-- C5: when no element matches any briefing content-marker selector and the
document text contains neither challenge phrase, the briefing extractor
returns the structure-changed message, not the blocked message and not a
success. -/
theorem no_match_no_challenge_structure_changed (soup : Soup)
    (h1 : (briefingElements soup).isEmpty = true)
    (h2 : containsStr (getText soup) "Just a moment" = false)
    (h3 : containsStr (getText soup) "Enable JavaScript" = false) :
    getLatestBriefingLogic (some soup) =
      "Error: Could not find briefing content. Structure might have changed." := by
  simp [getLatestBriefingLogic, h1, h2, h3]

/-- Witness for C5: a page with no matching elements and no challenge text. -/
theorem no_match_no_challenge_structure_changed_witness :
    getLatestBriefingLogic (some plainSoup) =
      "Error: Could not find briefing content. Structure might have changed." :=
  no_match_no_challenge_structure_changed plainSoup (by decide) (by decide) (by decide)

/-! ### C1 -/

/-- C1 counterexample: a document whose text contains "Just a moment" but
which also carries matching content markers is NOT classified as blocked:
the briefing extractor returns the extracted text and the article extractor
a success, because the challenge check only runs when no elements matched
(briefing) or the container is absent (article). -/
theorem challenge_marker_ignored_when_content_matches :
    containsStr (getText challengedBriefingSoup) "Just a moment" = true ∧
    getLatestBriefingLogic (some challengedBriefingSoup) = longPara ∧
    containsStr (getText challengedArticleSoup) "Just a moment" = true ∧
    readFullArticleLogic (some challengedArticleSoup) ≠
      "Error: Still blocked by Cloudflare challenge. Please try updating cookies." ∧
    readFullArticleLogic (some challengedArticleSoup) ≠
      "Error: Blocked by Cloudflare challenge." := by
  refine ⟨by decide, by decide, by decide, by decide, by decide⟩

/-- C1 amended: the blocked classification is returned exactly on the
no-content paths: the briefing extractor returns its blocked message when no
element matched and the text contains either challenge phrase; the article
extractor returns its blocked message when the container is absent and the
text contains "Just a moment" — and with the container absent but no
"Just a moment" (even if "Enable JavaScript" is present) it returns the
container-missing message instead. -/
theorem blocked_only_on_no_content_paths :
    (∀ soup : Soup, (briefingElements soup).isEmpty = true →
      (containsStr (getText soup) "Just a moment"
        || containsStr (getText soup) "Enable JavaScript") = true →
      getLatestBriefingLogic (some soup) =
        "Error: Still blocked by Cloudflare challenge. Please try updating cookies.") ∧
    (∀ soup : Soup, ((allElems soup).find? isArticleContainer).isNone = true →
      containsStr (getText soup) "Just a moment" = true →
      readFullArticleLogic (some soup) = "Error: Blocked by Cloudflare challenge.") ∧
    (∀ soup : Soup, ((allElems soup).find? isArticleContainer).isNone = true →
      containsStr (getText soup) "Just a moment" = false →
      readFullArticleLogic (some soup) =
        "Error: Could not find article container. Check URL or cookie validity.") := by
  refine ⟨fun soup h1 h2 => ?_, fun soup h1 h2 => ?_, fun soup h1 h2 => ?_⟩
  · simp [getLatestBriefingLogic, h1, h2]
  · rw [Option.isNone_iff_eq_none] at h1
    simp [readFullArticleLogic, h1, h2]
  · rw [Option.isNone_iff_eq_none] at h1
    simp [readFullArticleLogic, h1, h2]

/-- Witness for the amended C1 on three concrete challenge pages. -/
theorem blocked_only_on_no_content_paths_witness :
    getLatestBriefingLogic (some challengeOnlySoup) =
      "Error: Still blocked by Cloudflare challenge. Please try updating cookies." ∧
    readFullArticleLogic (some challengeOnlySoup) =
      "Error: Blocked by Cloudflare challenge." ∧
    readFullArticleLogic (some jsOnlySoup) =
      "Error: Could not find article container. Check URL or cookie validity." :=
  ⟨blocked_only_on_no_content_paths.1 challengeOnlySoup (by decide) (by decide),
   blocked_only_on_no_content_paths.2.1 challengeOnlySoup (by decide) (by decide),
   blocked_only_on_no_content_paths.2.2 jsOnlySoup (by decide) (by decide)⟩

/-! ### C3 -/

/-- C3: whenever the composed output is shorter than 100 characters, each
extractor fails: the briefing extractor (having matched at least one
element) returns its too-short message, and the article extractor (having
found the container) returns its insufficient-text message. -/
theorem short_output_always_fails :
    (∀ soup : Soup, (briefingElements soup).isEmpty = false →
      (briefingFullText soup).length < 100 →
      getLatestBriefingLogic (some soup) = "Error: Briefing content too short.") ∧
    (∀ (soup : Soup) (tg : String) (ats : List (String × String))
        (cls : List String) (ch : NodeList),
      (allElems soup).find? isArticleContainer = some (Node.elem tg ats cls ch) →
      (articleFullText ch).length < 100 →
      readFullArticleLogic (some soup) =
        "Error: Could not extract sufficient text. Check cookie validity or paywall status.") := by
  constructor
  · intro soup h1 h2
    simp [getLatestBriefingLogic, h1, h2]
  · intro soup tg ats cls ch hfind h2
    simp [readFullArticleLogic, hfind, h2]

/-- Witness for C3: a 4-character paragraph on each page kind. -/
theorem short_output_always_fails_witness :
    getLatestBriefingLogic (some shortBriefingSoup) = "Error: Briefing content too short." ∧
    readFullArticleLogic (some shortArticleSoup) =
      "Error: Could not extract sufficient text. Check cookie validity or paywall status." :=
  ⟨short_output_always_fails.1 shortBriefingSoup (by decide) (by decide),
   short_output_always_fails.2 shortArticleSoup "article" [("data-testid", "Article")] []
      shortArticleBody rfl (by decide)⟩

/-! ### C2 -/

/-- C2 counterexample: a failure while injecting cookies happens before the
`try` block of `fetch_content` and therefore propagates to the caller
instead of yielding the empty-document sentinel. -/
theorem fetch_cookie_failure_propagates :
    fetch_content cookieFailWorld = Except.error "add_cookies failed" := rfl

/-- C2 amended: every failure from `page.goto` onward is caught and mapped to
the empty-string sentinel, and the bounded selector wait never affects the
result; but failures during browser launch, context setup or cookie
injection occur before the `try` block and propagate. -/
theorem fetch_catches_only_try_block_failures :
    (∀ w : FetchWorld, w.launchFails = false → w.addCookiesFails = false →
      fetch_content w = Except.ok (fetchTryBody w)) ∧
    (∀ w : FetchWorld, w.launchFails = false → w.addCookiesFails = false →
      w.gotoFails = true → fetch_content w = Except.ok "") ∧
    (∀ w : FetchWorld, w.launchFails = false → w.addCookiesFails = false →
      w.gotoFails = false → w.scrollFails = false → w.contentFails = false →
      fetch_content w = Except.ok w.pageHtml) := by
  refine ⟨fun w h1 h2 => ?_, fun w h1 h2 h3 => ?_, fun w h1 h2 h3 h4 h5 => ?_⟩
  · simp [fetch_content, h1, h2]
  · simp [fetch_content, fetchTryBody, h1, h2, h3]
  · simp [fetch_content, fetchTryBody, h1, h2, h3, h4, h5]

/-- Witness for the amended C2 on three concrete fetch runs. -/
theorem fetch_catches_only_try_block_failures_witness :
    fetch_content okWorld = Except.ok (fetchTryBody okWorld) ∧
    fetch_content gotoFailWorld = Except.ok "" ∧
    fetch_content selectorTimeoutWorld = Except.ok "page content" :=
  ⟨fetch_catches_only_try_block_failures.1 okWorld rfl rfl,
   fetch_catches_only_try_block_failures.2.1 gotoFailWorld rfl rfl rfl,
   fetch_catches_only_try_block_failures.2.2 selectorTimeoutWorld rfl rfl rfl rfl rfl⟩

/-! ### C6 -/

/-- C6: parsing `"a=1; b=2;badtoken;c=3"` yields exactly the cookies a, b
and c with the fixed domain and path, and in general every `;`-segment
without an `=` is silently dropped: the parse result is exactly the map of
the well-formed segments. -/
theorem cookie_parsing_drops_malformed :
    parseCookies "a=1; b=2;badtoken;c=3" =
      [⟨"a", "1", ".economist.com", "/"⟩, ⟨"b", "2", ".economist.com", "/"⟩,
       ⟨"c", "3", ".economist.com", "/"⟩] ∧
    ∀ s : String, parseCookies s =
      ((pySplit ';' s).filter (fun item => item.data.contains '=')).map cookieOfSegment := by
  constructor
  · decide
  · intro s
    exact filterMap_guard (fun item => item.data.contains '=') cookieOfSegment (pySplit ';' s)

/-! ### C7 -/

/-- C7 counterexample: a heading fragment is emitted as `"\n## text"` and the
fragments are then joined with `"\n\n"`, so a heading that follows a
paragraph is separated from it by THREE newlines (two blank lines), not by
exactly one blank line as claimed. -/
theorem briefing_heading_separation_counterexample :
    getLatestBriefingLogic (some headedBriefingSoup) = longPara ++ "\n\n\n## Europe" ∧
    getLatestBriefingLogic (some headedBriefingSoup) ≠ pyJoin "\n\n" [longPara, "## Europe"] := by
  exact ⟨by decide, by decide⟩

/-- C7 amended: in a successful briefing extraction whose fragment texts are
single-line, every heading is rendered as a `## ` line of its own, every
paragraph as-is, and consecutive fragments are separated by one blank line
except that each heading is preceded by one additional blank line — exactly
the line shape computed by `fragLines`. -/
theorem briefing_output_line_shape (soup : Soup)
    (hne : (briefingElements soup).isEmpty = false)
    (hlen : ¬ (briefingFullText soup).length < 100)
    (hclean : ∀ f ∈ briefingFrags soup, '\n' ∉ f.text.data) :
    splitNl (getLatestBriefingLogic (some soup)).data = fragLines (briefingFrags soup) := by
  have hres : getLatestBriefingLogic (some soup) = briefingFullText soup := by
    simp [getLatestBriefingLogic, hne, hlen]
  have hfull : briefingFullText soup = pyJoin "\n\n" ((briefingFrags soup).map renderFrag) := by
    unfold briefingFullText
    rw [briefingParts_eq_frags]
  rw [hres, hfull]
  exact splitNl_pyJoin_frags (briefingFrags soup) hclean

/-- Witness for the amended C7 on the paragraph-then-heading fixture. -/
theorem briefing_output_line_shape_witness :
    splitNl (getLatestBriefingLogic (some headedBriefingSoup)).data =
      fragLines (briefingFrags headedBriefingSoup) :=
  briefing_output_line_shape headedBriefingSoup (by decide) (by decide) (by decide)

/-! ### Helper lemmas for the article line shape -/

theorem listStartsWith_nil_true (l : List Char) : listStartsWith l [] = true := by
  cases l <;> rfl

theorem listStartsWith_append (p l : List Char) : listStartsWith (p ++ l) p = true := by
  induction p with
  | nil => exact listStartsWith_nil_true l
  | cons c cs ih => simp [listStartsWith, ih]

theorem listStartsWith_trans_append (p q l : List Char) (h : listStartsWith q p = true) :
    listStartsWith (q ++ l) p = true := by
  induction p generalizing q with
  | nil => exact listStartsWith_nil_true _
  | cons d ds ih =>
    cases q with
    | nil => simp [listStartsWith] at h
    | cons c cs =>
      simp [listStartsWith] at h ⊢
      exact ⟨h.1, ih cs h.2⟩

theorem listStartsWith_head_ne (c d : Char) (cs ds : List Char) (h : ¬ c = d) :
    listStartsWith (c :: cs) (d :: ds) = false := by
  simp [listStartsWith, h]

theorem blankSep_filter_nonempty (ps : List (List Char)) (h : ∀ p ∈ ps, p ≠ []) :
    (blankSep ps).filter (fun l => !l.isEmpty) = ps := by
  induction ps with
  | nil => rfl
  | cons p ps ih =>
    cases ps with
    | nil =>
      have hp : p ≠ [] := h p (by simp)
      simp [blankSep, List.filter_cons, hp]
    | cons q r =>
      have hp : p ≠ [] := h p (by simp)
      have hrest : ∀ x ∈ q :: r, x ≠ [] := fun x hx => h x (by simp [hx])
      simp [blankSep, List.filter_cons, hp, ih hrest]

theorem blankSep_filter_none (pr : List Char → Bool) (ps : List (List Char))
    (h0 : pr [] = false) (h : ∀ p ∈ ps, pr p = false) :
    (blankSep ps).filter pr = [] := by
  induction ps with
  | nil => simp [blankSep, List.filter_cons, h0]
  | cons p ps ih =>
    cases ps with
    | nil => simp [blankSep, List.filter_cons, h p (by simp)]
    | cons q r =>
      simp [blankSep, List.filter_cons, h p (by simp), h0,
        ih (fun x hx => h x (by simp [hx]))]

theorem articleParagraphs_ne_empty (ch : NodeList) (p : String)
    (hp : p ∈ articleParagraphs ch) : p ≠ "" := by
  unfold articleParagraphs at hp
  rw [List.mem_filterMap] at hp
  obtain ⟨n, _, hn⟩ := hp
  by_cases h : getTextSpaceStrip n = ""
  · simp [h] at hn
  · simp [h] at hn
    exact hn ▸ h

theorem strData_ne_nil (p : String) (h : p ≠ "") : p.data ≠ [] := by
  intro hd
  apply h
  cases p with
  | mk l =>
    simp at hd
    subst hd
    rfl

theorem titleLine_data (t : String) :
    ("Title: " ++ t).data = 'T' :: ("itle: ".data ++ t.data) := by
  rw [strData_append]
  rfl

theorem filter_count_lines_one (T B : List Char) (rest : List (List Char))
    (pr : List Char → Bool) (hT : pr T = true) (hnil : pr [] = false)
    (hB : pr B = false) (hrest : rest.filter pr = []) :
    ((T :: [] :: B :: rest).filter pr).length = 1 := by
  simp [List.filter_cons, hT, hnil, hB, hrest]

theorem filter_count_lines_zero (T B : List Char) (rest : List (List Char))
    (pr : List Char → Bool) (hT : pr T = false) (hnil : pr [] = false)
    (hB : pr B = false) (hrest : rest.filter pr = []) :
    ((T :: [] :: B :: rest).filter pr).length = 0 := by
  simp [List.filter_cons, hT, hnil, hB, hrest]

theorem filter_nonblank_lines (T B : List Char) (rest ps : List (List Char))
    (hT : T.isEmpty = false) (hB : B.isEmpty = false)
    (hrest : rest.filter (fun l => !l.isEmpty) = ps) :
    (T :: [] :: B :: rest).filter (fun l => !l.isEmpty) = T :: B :: ps := by
  simp [List.filter_cons, hT, hB, hrest]

/-! ### C8 -/

/-- C8: with the container present, at least one extracted paragraph and
output of at least 100 characters, the article extractor succeeds even when
no title-marker element exists, and its output starts with the sentinel
line `Title: Title not found`. -/
theorem missing_title_not_fatal (soup : Soup) (tg : String)
    (ats : List (String × String)) (cls : List String) (ch : NodeList)
    (hfind : (allElems soup).find? isArticleContainer = some (Node.elem tg ats cls ch))
    (htitle : ((allElems ch).find? isTitleMarker).isNone = true)
    (hps : articleParagraphs ch ≠ [])
    (hlen : ¬ (articleFullText ch).length < 100) :
    readFullArticleLogic (some soup) = articleFullText ch ∧
    listStartsWith (articleFullText ch).data "Title: Title not found".data = true := by
  have hlen0 : ¬ (articleParagraphs ch).length = 0 := by
    simpa [List.length_eq_zero] using hps
  have htitle' : articleTitle ch = "Title not found" := by
    unfold articleTitle
    rw [Option.isNone_iff_eq_none] at htitle
    rw [htitle]
  constructor
  · simp [readFullArticleLogic, hfind, hlen0, hlen]
  · unfold articleFullText articleParts
    rw [htitle', pyJoin_cons_of_ne _ _ _ (by simp)]
    have e : ("Title: " ++ "Title not found").data = "Title: Title not found".data := by decide
    rw [strData_append, strData_append, e, List.append_assoc]
    exact listStartsWith_append _ _

/-- Witness for C8: an article container with one long paragraph and no
title element. -/
theorem missing_title_not_fatal_witness :
    readFullArticleLogic (some untitledArticleSoup) = articleFullText untitledArticleBody ∧
    listStartsWith (articleFullText untitledArticleBody).data
      "Title: Title not found".data = true :=
  missing_title_not_fatal untitledArticleSoup "article" [("data-testid", "Article")] []
    untitledArticleBody rfl (by decide) (by decide) (by decide)

/-! ### C4 -/

/-- C4 counterexample: a document with the container, a title marker, no
subheading marker and two paragraph markers, where one paragraph is
whitespace-only (so only one paragraph is emitted, not two) and the other
begins with the text `Title: ` (so two output lines begin with `Title:`,
not exactly one). -/
theorem article_title_line_not_unique :
    ((allElems trickyArticleBody).filter isParaMarker).length = 2 ∧
    (articleParagraphs trickyArticleBody).length = 1 ∧
    ((splitNl (readFullArticleLogic (some trickyArticleSoup)).data).filter
        (fun l => listStartsWith l "Title:".data)).length = 2 := by
  exact ⟨by decide, by decide, by decide⟩

/-- C4 amended: with the container present, a title marker, no subheading
marker, at least one non-whitespace paragraph and output of at least 100
characters, and provided title and paragraph texts are single-line and no
paragraph text begins with the `Title:` or `Subheading:` token, the output
has exactly one line beginning with `Title:`, no line beginning with
`Subheading:`, and its non-blank lines are exactly the title line, the
`Body:` marker and the non-whitespace paragraph texts in document order. -/
theorem article_output_line_shape (soup : Soup) (tg : String)
    (ats : List (String × String)) (cls : List String) (ch : NodeList) (tEl : Node)
    (hfind : (allElems soup).find? isArticleContainer = some (Node.elem tg ats cls ch))
    (htitle : (allElems ch).find? isTitleMarker = some tEl)
    (hsub : ((allElems ch).find? isSubheadingMarker).isNone = true)
    (hps : articleParagraphs ch ≠ [])
    (hlen : ¬ (articleFullText ch).length < 100)
    (hT : '\n' ∉ (getTextStripN tEl).data)
    (hclean : ∀ p ∈ articleParagraphs ch, '\n' ∉ p.data ∧
      listStartsWith p.data "Title:".data = false ∧
      listStartsWith p.data "Subheading:".data = false) :
    ((splitNl (readFullArticleLogic (some soup)).data).filter
        (fun l => listStartsWith l "Title:".data)).length = 1 ∧
    ((splitNl (readFullArticleLogic (some soup)).data).filter
        (fun l => listStartsWith l "Subheading:".data)).length = 0 ∧
    (splitNl (readFullArticleLogic (some soup)).data).filter (fun l => !l.isEmpty) =
      ("Title: " ++ getTextStripN tEl).data :: "Body:".data ::
        (articleParagraphs ch).map String.data := by
  have hlen0 : ¬ (articleParagraphs ch).length = 0 := by
    simpa [List.length_eq_zero] using hps
  have hres : readFullArticleLogic (some soup) = articleFullText ch := by
    simp [readFullArticleLogic, hfind, hlen0, hlen]
  have hsub' : articleSubheading ch = none := by
    unfold articleSubheading
    rw [Option.isNone_iff_eq_none] at hsub
    rw [hsub]
    rfl
  have htitle' : articleTitle ch = getTextStripN tEl := by
    unfold articleTitle
    rw [htitle]
  have hfull : articleFullText ch
      = ("Title: " ++ getTextStripN tEl) ++ "\n"
          ++ ("\nBody:\n" ++ pyJoin "\n\n" (articleParagraphs ch)) := by
    unfold articleFullText articleParts
    rw [hsub', htitle']
    rfl
  have hdata : (articleFullText ch).data
      = ("Title: " ++ getTextStripN tEl).data
          ++ ('\n' :: '\n' :: ("Body:".data
            ++ '\n' :: (pyJoin "\n\n" (articleParagraphs ch)).data)) := by
    rw [hfull]
    simp only [strData_append, List.append_assoc]
    rfl
  have hTfull : '\n' ∉ ("Title: " ++ getTextStripN tEl).data := by
    rw [strData_append]
    intro hmem
    rcases List.mem_append.mp hmem with hx | hx
    · exact absurd hx (by decide)
    · exact hT hx
  have hJ : splitCh '\n' (pyJoin "\n\n" (articleParagraphs ch)).data
      = blankSep ((articleParagraphs ch).map String.data) :=
    splitNl_pyJoin_blank (articleParagraphs ch) (fun p hp => (hclean p hp).1)
  have hsplit : splitNl (articleFullText ch).data
      = ("Title: " ++ getTextStripN tEl).data :: [] :: "Body:".data ::
          blankSep ((articleParagraphs ch).map String.data) := by
    rw [hdata]
    show splitCh '\n' _ = _
    rw [splitCh_append '\n' _ _ hTfull, splitCh_cons_sep, splitCh_cons_sep,
      splitCh_append '\n' "Body:".data _ (by decide), splitCh_cons_sep, hJ]
    simp [List.modifyHead]
  have predT : listStartsWith ("Title: " ++ getTextStripN tEl).data "Title:".data = true := by
    rw [strData_append]
    exact listStartsWith_trans_append _ _ _ (by decide)
  have predSubT : listStartsWith ("Title: " ++ getTextStripN tEl).data
      "Subheading:".data = false := by
    rw [titleLine_data]
    exact listStartsWith_head_ne _ _ _ _ (by decide)
  have e1 : listStartsWith ([] : List Char) "Title:".data = false := by decide
  have e2 : listStartsWith "Body:".data "Title:".data = false := by decide
  have e3 : listStartsWith ([] : List Char) "Subheading:".data = false := by decide
  have e4 : listStartsWith "Body:".data "Subheading:".data = false := by decide
  have hpsd1 : ∀ x ∈ (articleParagraphs ch).map String.data,
      listStartsWith x "Title:".data = false := by
    intro x hx
    obtain ⟨p, hp, rfl⟩ := List.mem_map.mp hx
    exact (hclean p hp).2.1
  have hpsd2 : ∀ x ∈ (articleParagraphs ch).map String.data,
      listStartsWith x "Subheading:".data = false := by
    intro x hx
    obtain ⟨p, hp, rfl⟩ := List.mem_map.mp hx
    exact (hclean p hp).2.2
  have hpsd3 : ∀ x ∈ (articleParagraphs ch).map String.data, x ≠ [] := by
    intro x hx
    obtain ⟨p, hp, rfl⟩ := List.mem_map.mp hx
    exact strData_ne_nil p (articleParagraphs_ne_empty ch p hp)
  have g1 : ("Title: " ++ getTextStripN tEl).data.isEmpty = false := by
    rw [titleLine_data]
    rfl
  rw [hres, hsplit]
  refine ⟨?_, ?_, ?_⟩
  · exact filter_count_lines_one _ _ _ _ predT e1 e2 (blankSep_filter_none _ _ e1 hpsd1)
  · exact filter_count_lines_zero _ _ _ _ predSubT e3 e4 (blankSep_filter_none _ _ e3 hpsd2)
  · exact filter_nonblank_lines _ _ _ _ g1 (by decide) (blankSep_filter_nonempty _ hpsd3)

/-- Witness for the amended C4 on the two-paragraph article fixture. -/
theorem article_output_line_shape_witness :
    ((splitNl (readFullArticleLogic (some cleanArticleSoup)).data).filter
        (fun l => listStartsWith l "Title:".data)).length = 1 ∧
    ((splitNl (readFullArticleLogic (some cleanArticleSoup)).data).filter
        (fun l => listStartsWith l "Subheading:".data)).length = 0 ∧
    (splitNl (readFullArticleLogic (some cleanArticleSoup)).data).filter (fun l => !l.isEmpty) =
      ("Title: " ++ getTextStripN headlineElem).data :: "Body:".data ::
        (articleParagraphs cleanArticleBody).map String.data :=
  article_output_line_shape cleanArticleSoup "article" [("data-testid", "Article")] []
    cleanArticleBody headlineElem rfl rfl (by decide) (by decide) (by decide) (by decide)
    (by decide)

end EconomistMcp
